import Mathlib

/-
Verification of the auth_saml user model (src/auth_saml/models/res_users.py).

The embedding below is a shallow model of the Odoo `res.users` extension in
that file.  Records are lists of structures, recordsets are lists of record
ids, and each Python method becomes a Lean function over an explicit `State`.
Raising an exception is modelled with `Except`; for the sign-in pipeline the
functions additionally return the state reached when control leaves the
function, so that "nothing was written before the raise" is expressible.

Modelling notes, tied to the source:
- `SUPERUSER_ID` is the framework constant (1 in Odoo).
- `res.users.saml` (the FederatedIdentity link model) and `auth_saml.token`
  are declared outside this module; their record shape is modelled from the
  spec (owning user id, provider id, subject id / token value).
- `self.id` on a recordset of two or more records raises
  `ValueError("Expected singleton")` in Odoo; `set_password` models this
  with the `expectedSingleton` error, reachable exactly when the lambda in
  `filtered` evaluates `self.id`, i.e. when some record has `saml_ids`.
- `tools.str2bool` with no default raises `ValueError` on an unrecognised
  string; this is the `valueError` case.
- `passlib.utils.generate_password(size=24, charset="ascii_72")` returns an
  unpredictable 24-character string; it is modelled by the
  `generated_password` field of `Config`.
- On an error result the returned `State` of the sign-in functions is the
  state before the failing statement (the surrounding transaction aborts).
-/

namespace AuthSaml

/-- Framework constant `SUPERUSER_ID` imported from odoo. -/
def SUPERUSER_ID : Nat := 1

/-- A `res.users.saml` record (FederatedIdentity). Modelled from the spec:
the model itself is declared in a sibling file outside the sources at hand;
it carries the owning user id, the provider id and the IdP subject id. -/
structure SamlId where
  user_id : Nat
  saml_provider_id : Nat
  saml_uid : String
deriving DecidableEq

/-- An `auth_saml.token` record. Modelled from the spec: owning user id,
provider id and the stored token value (`NULL` when created as a
placeholder, hence `Option String`). -/
structure SamlToken where
  user_id : Nat
  saml_provider_id : Nat
  saml_access_token : Option String
deriving DecidableEq

/-- A `res.users` record restricted to the fields the module touches. -/
structure UserRec where
  id : Nat
  login : String
  password : Option String
deriving DecidableEq

/-- The database state the module reads and writes. -/
structure State where
  users : List UserRec
  saml_ids : List SamlId
  tokens : List SamlToken
deriving DecidableEq

/-- Ambient configuration: the `ir.config_parameter` value for
`auth_saml.allow_saml_uid_and_internal_password` (`none` when the parameter
is absent), the id of `base.user_admin` when that record exists, whether the
`password_security` module is installed, the value returned by
`passlib.utils.generate_password`, and the database name. -/
structure Config where
  allow_param : Option String
  user_admin : Option Nat
  password_security : Bool
  generated_password : String
  dbname : String
deriving DecidableEq

/-- Exceptions raised by the module. `validationError` is the
`PasswordSamlConflict` constraint error carrying the offending logins;
`expectedSingleton` is the `ValueError` Odoo raises when `self.id` is read
on a multi-record recordset; `valueError` is `tools.str2bool` rejecting an
unrecognised parameter string. -/
inductive SamlError where
  | accessDenied
  | validationError (logins : List String)
  | expectedSingleton
  | valueError
deriving DecidableEq

/-- ASCII lowercase of a character list (structural recursion, so that the
kernel can evaluate it; the values compared against below are all ASCII). -/
def lowerChars : List Char → List Char
  | [] => []
  | c :: cs => c.toLower :: lowerChars cs

/-- Python `str.lower()` restricted to ASCII input. -/
def strLower (s : String) : String :=
  String.mk (lowerChars s.data)

/-- odoo `tools.str2bool` with no default: lowercase the string and look it
up in the yes/no word lists; anything else raises `ValueError` (`none`). -/
def str2bool (s : String) : Option Bool :=
  if strLower s ∈ ["y", "yes", "1", "true", "t", "on"] then some true
  else if strLower s ∈ ["n", "no", "0", "false", "f", "off"] then some false
  else none

/-- `ir.config_parameter.get_param(key, "False")`: the stored value when
present and truthy, else the supplied default `"False"`. -/
def get_allow_param (cfg : Config) : String :=
  match cfg.allow_param with
  | none => "False"
  | some s => if s = "" then "False" else s

/-- `ResUser._allow_saml_and_password`: `str2bool` of the configuration
parameter, defaulting to `"False"`. -/
def allow_saml_and_password (cfg : Config) : Option Bool :=
  str2bool (get_allow_param cfg)

/-- `ResUser._saml_allowed_user_ids`: the superuser plus `base.user_admin`
when it exists. -/
def saml_allowed_user_ids (cfg : Config) : List Nat :=
  match cfg.user_admin with
  | some a => [SUPERUSER_ID, a]
  | none => [SUPERUSER_ID]

/-- Truthiness of `user.saml_ids` for the user with id `uid`. -/
def hasSamlIds (st : State) (uid : Nat) : Bool :=
  st.saml_ids.any (fun r => r.user_id == uid)

/-- Fetch the record of user `uid`. -/
def findUser (st : State) (uid : Nat) : Option UserRec :=
  st.users.find? (fun u => u.id == uid)

/-- `user.login` for user `uid` (`none` when no such record exists). -/
def userLogin (st : State) (uid : Nat) : Option String :=
  (findUser st uid).map (fun u => u.login)

/-- The stored `password` value of user `uid`, flattening a missing record
and a `NULL` password to `none`. -/
def userPassword (st : State) (uid : Nat) : Option String :=
  (findUser st uid).bind (fun u => u.password)

/-- Truthiness of `user.password` for user `uid`. -/
def truthyPassword (st : State) (uid : Nat) : Bool :=
  match userPassword st uid with
  | some s => s != ""
  | none => false

/-- Store `pw` as the cached password of every user in `ids`. -/
def setUserPassword (st : State) (ids : List Nat) (pw : Option String) : State :=
  { st with users := st.users.map (fun u =>
      if ids.contains u.id then { u with password := pw } else u) }

/-- Store `l` as the login of every user in `ids`. -/
def setUserLogin (st : State) (ids : List Nat) (l : String) : State :=
  { st with users := st.users.map (fun u =>
      if ids.contains u.id then { u with login := l } else u) }

/-- The `saml_users` filter of `_set_password`: the lambda reads `self.id`,
which on the non-raising paths is the single record's id, modelled as
`selfIds.headD 0` (on the empty recordset `self.id` is `False`, and then
the filter is empty anyway). -/
def set_password_saml_users (cfg : Config) (st : State) (selfIds : List Nat) :
    List Nat :=
  selfIds.filter (fun u =>
    hasSamlIds st u
    && !((saml_allowed_user_ids cfg).contains (selfIds.headD 0))
    && truthyPassword st u)

/-- `ResUser._set_password`, the inverse method of the password field,
running after the new password values are already in cache (so `st` is the
post-assignment state and `selfIds` is the recordset being written).  The
constraint block filters `self` with a lambda reading `self.id`; on a
recordset with two or more records that read raises as soon as a record
with `saml_ids` is reached, modelled by `expectedSingleton`.  The final
blank/non-blank handling only re-stores values already in cache, so it
leaves the model state unchanged. -/
def set_password (cfg : Config) (st : State) (selfIds : List Nat) :
    Except SamlError State :=
  match allow_saml_and_password cfg with
  | none => .error .valueError
  | some allow =>
    if allow then .ok st
    else if selfIds.length ≥ 2 && selfIds.any (fun u => hasSamlIds st u) then
      .error .expectedSingleton
    else if !(set_password_saml_users cfg st selfIds).isEmpty then
      .error (.validationError
        ((set_password_saml_users cfg st selfIds).map
          (fun u => (userLogin st u).getD "")))
    else
      .ok st

/-- The base `write` of the fields this module touches: update the cached
values, then run the password inverse method when the password was part of
`vals`.  `login?` is the optional `login` value in `vals`; `pw?` is
`some pw` when `vals` contains `password` (with `pw = none` for a blank
password). -/
def super_write (cfg : Config) (st : State) (selfIds : List Nat)
    (login? : Option String) (pw? : Option (Option String)) :
    Except SamlError State :=
  let st1 := match login? with
    | some l => setUserLogin st selfIds l
    | none => st
  match pw? with
  | none => .ok st1
  | some pw =>
    let st2 := setUserPassword st1 selfIds pw
    set_password cfg st2 selfIds

/-- `ResUser._autoremove_password_if_saml_gen_password`: `False` unless the
`password_security` module is installed, in which case a generated
24-character password. -/
def autoremove_gen_password (cfg : Config) : Option String :=
  if cfg.password_security then some cfg.generated_password else none

/-- The search over `auth_saml.token` for the `(user, provider)` pair, as a
truthiness test. -/
def hasTokenFor (tokens : List SamlToken) (uid pid : Nat) : Bool :=
  tokens.any (fun t => t.user_id == uid && t.saml_provider_id == pid)

/-- The token records stored for the `(user, provider)` pair. -/
def pairTokens (tokens : List SamlToken) (uid pid : Nat) : List SamlToken :=
  tokens.filter (fun t => t.user_id == uid && t.saml_provider_id == pid)

/-- Append a placeholder token for `(uid, pid)` unless one exists: the body
of the inner loop of `_ensure_saml_token_exists`. -/
def ensure_token_for (uid pid : Nat) (tokens : List SamlToken) : List SamlToken :=
  if hasTokenFor tokens uid pid then
    tokens
  else
    tokens ++ [{ user_id := uid, saml_provider_id := pid, saml_access_token := none }]

/-- The `(record.id, provider.saml_provider_id.id)` pairs iterated by the
two nested loops of `_ensure_saml_token_exists`, in iteration order. -/
def ensure_pairs (st : State) (selfIds : List Nat) : List (Nat × Nat) :=
  (selfIds.filter (fun u => hasSamlIds st u)).flatMap (fun u =>
    (st.saml_ids.filter (fun r => r.user_id == u)).map
      (fun r => (u, r.saml_provider_id)))

/-- The iteration of `_ensure_saml_token_exists` over a list of
`(user, provider)` pairs. -/
def ensureFold (tokens : List SamlToken) (prs : List (Nat × Nat)) : List SamlToken :=
  prs.foldl (fun tks p => ensure_token_for p.1 p.2 tks) tokens

/-- `ResUser._ensure_saml_token_exists`: for every record of `self` with
`saml_ids`, and every linked provider, create a placeholder token when none
exists for the pair. -/
def ensure_saml_token_exists (st : State) (selfIds : List Nat) : State :=
  { st with tokens := ensureFold st.tokens (ensure_pairs st selfIds) }

/-- The `to_remove_password` filter of `_autoremove_password_if_saml`:
every non-superuser record with `saml_ids` and a truthy password. -/
def autoremove_to_remove (st : State) (selfIds : List Nat) : List Nat :=
  selfIds.filter (fun u =>
    !(u == SUPERUSER_ID) && hasSamlIds st u && truthyPassword st u)

/-- `ResUser._autoremove_password_if_saml` as called with an empty context
(the recursive call it performs carries `auth_saml_no_autoremove_password`,
so the inner `write` is unfolded here with its autoremoval step skipped:
the inner write is `super().write` followed by `_ensure_saml_token_exists`). -/
def autoremove_password_if_saml (cfg : Config) (st : State)
    (selfIds : List Nat) : Except SamlError State :=
  match allow_saml_and_password cfg with
  | none => .error .valueError
  | some allow =>
    if allow then .ok st
    else if (autoremove_to_remove st selfIds).isEmpty then .ok st
    else
      match super_write cfg st (autoremove_to_remove st selfIds) none
          (some (autoremove_gen_password cfg)) with
      | .error e => .error e
      | .ok st1 => .ok (ensure_saml_token_exists st1 (autoremove_to_remove st selfIds))

/-- `ResUser.write` restricted to the fields of the model: the base write,
then `_autoremove_password_if_saml`, then `_ensure_saml_token_exists`. -/
def write_users (cfg : Config) (st : State) (selfIds : List Nat)
    (login? : Option String) (pw? : Option (Option String)) :
    Except SamlError State :=
  match super_write cfg st selfIds login? pw? with
  | .error e => .error e
  | .ok st1 =>
    match autoremove_password_if_saml cfg st1 selfIds with
    | .error e => .error e
    | .ok st2 => .ok (ensure_saml_token_exists st2 selfIds)

/-- The validated claims set returned by the Assertion Validator: the
`user_id` entry (subject id, `""` when missing or falsy) and the
`mapped_attrs` dictionary, of which the model applies the `login` and
`password` keys to the user record. -/
structure Validation where
  user_id : String
  mapped_attrs : List (String × String)
deriving DecidableEq

/-- `ResUser._auth_saml_signin`: resolve the subject through a
`limit=1` search over `res.users.saml`, deny when the resulting user
recordset is empty, then update every existing token of the
`(provider, user)` pair or create one, then apply `mapped_attrs` through
`write` when non-empty, and return `user.login`.  The returned `State` is
the state when control leaves the method.  The token block of the method is
`signin_token_update`: write all existing tokens of the pair, or create a
single new one. -/
def signin_token_update (st : State) (provider uid : Nat)
    (saml_response : String) : State :=
  if !(st.tokens.filter (fun t =>
      t.saml_provider_id == provider && t.user_id == uid)).isEmpty then
    { st with tokens := st.tokens.map (fun t =>
        if t.saml_provider_id == provider && t.user_id == uid then
          { t with saml_access_token := some saml_response }
        else t) }
  else
    { st with tokens := st.tokens ++
        [{ user_id := uid, saml_provider_id := provider,
           saml_access_token := some saml_response }] }

def auth_saml_signin (cfg : Config) (st : State) (provider : Nat)
    (validation : Validation) (saml_response : String) :
    State × Except SamlError (Option String) :=
  match st.saml_ids.find? (fun r =>
      r.saml_uid == validation.user_id && r.saml_provider_id == provider) with
  | none => (st, .error .accessDenied)
  | some rec =>
    if !validation.mapped_attrs.isEmpty then
      match write_users cfg (signin_token_update st provider rec.user_id saml_response)
          [rec.user_id]
          ((validation.mapped_attrs.find? (fun p => p.1 == "login")).map (fun p => p.2))
          (((validation.mapped_attrs.find? (fun p => p.1 == "password")).map
            (fun p => p.2)).map some) with
      | .error e => (signin_token_update st provider rec.user_id saml_response, .error e)
      | .ok st2 => (st2, .ok (userLogin st2 rec.user_id))
    else
      (signin_token_update st provider rec.user_id saml_response,
        .ok (userLogin (signin_token_update st provider rec.user_id saml_response)
          rec.user_id))

/-- `ResUser.auth_saml`: the validation result of the external Assertion
Validator is passed in; deny on a falsy `user_id`, sign in, deny on a falsy
login, else return `(dbname, login, saml_response)`. -/
def auth_saml (cfg : Config) (st : State) (provider : Nat)
    (validation : Validation) (saml_response : String) :
    State × Except SamlError (String × String × String) :=
  if validation.user_id == "" then (st, .error .accessDenied)
  else
    match auth_saml_signin cfg st provider validation saml_response with
    | (st1, .error e) => (st1, .error e)
    | (st1, .ok login?) =>
      match login? with
      | none => (st1, .error .accessDenied)
      | some l =>
        if l == "" then (st1, .error .accessDenied)
        else (st1, .ok (cfg.dbname, l, saml_response))

/-- Outcome of the delegated `super()._check_credentials` call. -/
inductive SuperCheckResult where
  | ok
  | accessDenied
  | passwordSizeError
  | otherError (code : Nat)
deriving DecidableEq

/-- Errors surfaced by `_check_credentials`. -/
inductive CheckError where
  | accessDenied
  | otherError (code : Nat)
deriving DecidableEq

/-- `ResUser._check_credentials`: try the standard chain first; on
`AccessDenied` or `passlib.exc.PasswordSizeError` fall back to searching
for a token of the session user whose value equals the presented secret,
re-raising `AccessDenied` when none matches; any other exception
propagates. -/
def check_credentials (st : State) (session_uid : Nat) (password : String)
    (superResult : SuperCheckResult) : Except CheckError Unit :=
  match superResult with
  | .ok => .ok ()
  | .accessDenied | .passwordSizeError =>
    if st.tokens.any (fun t =>
        t.user_id == session_uid && t.saml_access_token == some password) then
      .ok ()
    else
      .error .accessDenied
  | .otherError c => .error (.otherError c)

/-- Number of tokens stored for the `(uid, pid)` pair. -/
def tokenCount (st : State) (uid pid : Nat) : Nat :=
  (pairTokens st.tokens uid pid).length

/-- The spec invariant: at most one token per `(user, provider)` pair. -/
def tokenInvariant (st : State) : Prop :=
  ∀ uid pid, tokenCount st uid pid ≤ 1

/-! ### Concrete fixtures, used to instantiate the theorems below -/

/-- Default configuration: parameter absent, no `base.user_admin`, no
`password_security`. -/
def cfgDefault : Config :=
  { allow_param := none, user_admin := none, password_security := false,
    generated_password := "", dbname := "db" }

/-- Configuration where `base.user_admin` exists with id 2. -/
def cfgAdmin : Config :=
  { allow_param := none, user_admin := some 2, password_security := false,
    generated_password := "", dbname := "db" }

/-- Configuration with the `password_security` module installed. -/
def cfgStrength : Config :=
  { allow_param := none, user_admin := none, password_security := true,
    generated_password := "R4nd0mGeneratedPassword1", dbname := "db" }

/-- Two FederatedIdentity records share `(provider 7, subject "abc")`:
a state violating the uniqueness invariant. -/
def stAmbiguous : State :=
  { users := [{ id := 2, login := "alice", password := none },
              { id := 3, login := "carol", password := none }],
    saml_ids := [{ user_id := 2, saml_provider_id := 7, saml_uid := "abc" },
                 { user_id := 3, saml_provider_id := 7, saml_uid := "abc" }],
    tokens := [] }

/-- The `base.user_admin` account (id 2) holding both a password and a
federated identity. -/
def stAdmin : State :=
  { users := [{ id := 2, login := "admin", password := some "secret" }],
    saml_ids := [{ user_id := 2, saml_provider_id := 7, saml_uid := "a" }],
    tokens := [] }

/-- A non-exempt user (id 5) holding both a password and a federated
identity. -/
def stBob : State :=
  { users := [{ id := 5, login := "bob", password := some "pw" }],
    saml_ids := [{ user_id := 5, saml_provider_id := 7, saml_uid := "b" }],
    tokens := [] }

/-- A single user (id 4) linked to provider 7 under subject `"abc"`,
with no token yet. -/
def stAlice : State :=
  { users := [{ id := 4, login := "alice", password := none }],
    saml_ids := [{ user_id := 4, saml_provider_id := 7, saml_uid := "abc" }],
    tokens := [] }

/-! ### Basic record lemmas -/

theorem find?_map_id_preserving (users : List UserRec) (f : UserRec → UserRec)
    (hf : ∀ x, (f x).id = x.id) (u : Nat) :
    (users.map f).find? (fun x => x.id == u) =
      (users.find? (fun x => x.id == u)).map f := by
  induction users with
  | nil => rfl
  | cons a l ih =>
    simp only [List.map_cons, List.find?_cons, hf a]
    cases h : (a.id == u) <;> simp [h, ih]

theorem findUser_setUserPassword (st : State) (ids : List Nat)
    (pw : Option String) (u : Nat) :
    findUser (setUserPassword st ids pw) u =
      (findUser st u).map
        (fun x => if ids.contains x.id then { x with password := pw } else x) := by
  unfold findUser setUserPassword
  exact find?_map_id_preserving st.users _ (fun x => by split <;> rfl) u

theorem userLogin_setUserPassword (st : State) (ids : List Nat)
    (pw : Option String) (u : Nat) :
    userLogin (setUserPassword st ids pw) u = userLogin st u := by
  unfold userLogin
  rw [findUser_setUserPassword]
  cases findUser st u with
  | none => rfl
  | some x =>
    show some (if ids.contains x.id then { x with password := pw } else x).login =
      some x.login
    split <;> rfl

theorem userPassword_setUserPassword_of_contains (st : State) (ids : List Nat)
    (pw : Option String) (u : Nat) (hu : ids.contains u = true) :
    userPassword (setUserPassword st ids pw) u =
      (findUser st u).bind (fun _ => pw) := by
  unfold userPassword
  rw [findUser_setUserPassword]
  cases hx : findUser st u with
  | none => rfl
  | some x =>
    have hid : x.id = u := by
      have := List.find?_some hx
      simpa using this
    show (if ids.contains x.id then { x with password := pw } else x).password = pw
    rw [hid, hu]
    simp

theorem hasSamlIds_setUserPassword (st : State) (ids : List Nat)
    (pw : Option String) (u : Nat) :
    hasSamlIds (setUserPassword st ids pw) u = hasSamlIds st u := rfl

theorem userLogin_ensure (st : State) (ids : List Nat) (u : Nat) :
    userLogin (ensure_saml_token_exists st ids) u = userLogin st u := rfl

theorem userPassword_ensure (st : State) (ids : List Nat) (u : Nat) :
    userPassword (ensure_saml_token_exists st ids) u = userPassword st u := rfl

theorem contains_superuser (cfg : Config) :
    (saml_allowed_user_ids cfg).contains SUPERUSER_ID = true := by
  unfold saml_allowed_user_ids
  cases cfg.user_admin <;> simp

theorem set_password_ok (cfg : Config) (st : State) (ids : List Nat)
    (st2 : State) (h : set_password cfg st ids = .ok st2) : st2 = st := by
  unfold set_password at h
  cases hall : allow_saml_and_password cfg with
  | none => rw [hall] at h; cases h
  | some allow =>
    rw [hall] at h
    by_cases ha : allow
    · subst ha; simp at h; exact h.symm
    · simp only [Bool.not_eq_true] at ha
      subst ha
      simp only [Bool.false_eq_true, if_false] at h
      split at h
      · cases h
      · split at h
        · cases h
        · cases h; rfl

theorem super_write_ok_tokens (cfg : Config) (st : State) (ids : List Nat)
    (login? : Option String) (pw? : Option (Option String)) (st2 : State)
    (h : super_write cfg st ids login? pw? = .ok st2) :
    st2.tokens = st.tokens ∧ st2.saml_ids = st.saml_ids := by
  unfold super_write at h
  cases pw? with
  | none =>
    simp only [Except.ok.injEq] at h
    cases login? <;> (cases h; exact ⟨rfl, rfl⟩)
  | some pw =>
    have h2 := set_password_ok _ _ _ _ h
    cases login? <;> (cases h2; exact ⟨rfl, rfl⟩)

/-! ### Token list lemmas -/

theorem pairTokens_append (tks1 tks2 : List SamlToken) (u p : Nat) :
    pairTokens (tks1 ++ tks2) u p = pairTokens tks1 u p ++ pairTokens tks2 u p :=
  List.filter_append _ _

theorem pairTokens_singleton (t : SamlToken) (u p : Nat) :
    pairTokens [t] u p =
      if t.user_id == u && t.saml_provider_id == p then [t] else [] := by
  unfold pairTokens
  simp only [List.filter_cons, List.filter_nil]

theorem filter_prov_user (tks : List SamlToken) (u p : Nat) :
    tks.filter (fun t => t.saml_provider_id == p && t.user_id == u) =
      pairTokens tks u p :=
  List.filter_congr (fun t _ => Bool.and_comm _ _)

theorem hasTokenFor_iff (tks : List SamlToken) (u p : Nat) :
    hasTokenFor tks u p = true ↔ pairTokens tks u p ≠ [] := by
  unfold hasTokenFor pairTokens
  rw [List.any_eq_true, Ne, List.filter_eq_nil_iff]
  push_neg
  simp

theorem one_le_length_pairTokens_of_hasTokenFor (tks : List SamlToken) (u p : Nat)
    (h : hasTokenFor tks u p = true) : 1 ≤ (pairTokens tks u p).length := by
  have hne := (hasTokenFor_iff tks u p).mp h
  cases hm : pairTokens tks u p with
  | nil => exact absurd hm hne
  | cons a l => simp

theorem ensure_token_for_of_present (u p : Nat) (tks : List SamlToken)
    (h : hasTokenFor tks u p = true) : ensure_token_for u p tks = tks := by
  simp [ensure_token_for, h]

theorem hasTokenFor_ensure_mono (a b u p : Nat) (tks : List SamlToken)
    (h : hasTokenFor tks u p = true) :
    hasTokenFor (ensure_token_for a b tks) u p = true := by
  unfold ensure_token_for
  split
  · exact h
  · unfold hasTokenFor at h ⊢
    rw [List.any_append]
    simp [h]

theorem hasTokenFor_ensure_self (u p : Nat) (tks : List SamlToken) :
    hasTokenFor (ensure_token_for u p tks) u p = true := by
  unfold ensure_token_for
  split
  · next h => exact h
  · unfold hasTokenFor
    rw [List.any_append]
    simp

theorem pairTokens_ensure_of_present (a b u p : Nat) (tks : List SamlToken)
    (h : hasTokenFor tks u p = true) :
    pairTokens (ensure_token_for a b tks) u p = pairTokens tks u p := by
  unfold ensure_token_for
  split
  · rfl
  · next hab =>
    rw [pairTokens_append, pairTokens_singleton]
    split
    · next hph =>
      exfalso
      simp only [Bool.and_eq_true, beq_iff_eq] at hph
      obtain ⟨ha, hb⟩ := hph
      subst ha
      subst hb
      exact hab h
    · rw [List.append_nil]

theorem length_pairTokens_ensure_le (a b u p : Nat) (tks : List SamlToken)
    (h : (pairTokens tks u p).length ≤ 1) :
    (pairTokens (ensure_token_for a b tks) u p).length ≤ 1 := by
  unfold ensure_token_for
  split
  · exact h
  · next hab =>
    rw [pairTokens_append, pairTokens_singleton]
    split
    · next hph =>
      simp only [Bool.and_eq_true, beq_iff_eq] at hph
      have h0 : pairTokens tks u p = [] := by
        by_contra hne
        have hh := (hasTokenFor_iff tks u p).mpr hne
        rw [← hph.1, ← hph.2] at hh
        exact hab hh
      rw [h0]
      simp
    · rw [List.append_nil]
      exact h

theorem hasTokenFor_ensureFold_mono (prs : List (Nat × Nat)) (tks : List SamlToken)
    (u p : Nat) (h : hasTokenFor tks u p = true) :
    hasTokenFor (ensureFold tks prs) u p = true := by
  induction prs generalizing tks with
  | nil => exact h
  | cons q rest ih => exact ih _ (hasTokenFor_ensure_mono q.1 q.2 u p tks h)

theorem hasTokenFor_ensureFold_mem (prs : List (Nat × Nat)) (tks : List SamlToken)
    (u p : Nat) (hm : (u, p) ∈ prs) :
    hasTokenFor (ensureFold tks prs) u p = true := by
  induction prs generalizing tks with
  | nil => cases hm
  | cons q rest ih =>
    cases hm with
    | head =>
      exact hasTokenFor_ensureFold_mono rest _ u p (hasTokenFor_ensure_self u p tks)
    | tail _ hm2 => exact ih _ hm2

theorem ensureFold_eq_of_present (prs : List (Nat × Nat)) (tks : List SamlToken)
    (h : ∀ q ∈ prs, hasTokenFor tks q.1 q.2 = true) : ensureFold tks prs = tks := by
  induction prs with
  | nil => rfl
  | cons q rest ih =>
    show ensureFold (ensure_token_for q.1 q.2 tks) rest = tks
    rw [ensure_token_for_of_present _ _ _ (h q (List.mem_cons_self q rest))]
    exact ih (fun q2 hq2 => h q2 (List.mem_cons_of_mem _ hq2))

theorem pairTokens_ensureFold_of_present (prs : List (Nat × Nat))
    (tks : List SamlToken) (u p : Nat) (h : hasTokenFor tks u p = true) :
    pairTokens (ensureFold tks prs) u p = pairTokens tks u p := by
  induction prs generalizing tks with
  | nil => rfl
  | cons q rest ih =>
    show pairTokens (ensureFold (ensure_token_for q.1 q.2 tks) rest) u p = _
    rw [ih _ (hasTokenFor_ensure_mono _ _ _ _ _ h),
      pairTokens_ensure_of_present _ _ _ _ _ h]

theorem ensureFold_append_only (prs : List (Nat × Nat)) (tks : List SamlToken) :
    ∃ extra, ensureFold tks prs = tks ++ extra
      ∧ ∀ t ∈ extra, t.saml_access_token = none := by
  induction prs generalizing tks with
  | nil => exact ⟨[], by simp [ensureFold], by simp⟩
  | cons q rest ih =>
    show ∃ extra, ensureFold (ensure_token_for q.1 q.2 tks) rest = tks ++ extra ∧ _
    unfold ensure_token_for
    split
    · exact ih tks
    · obtain ⟨e, he, hv⟩ :=
        ih (tks ++ [{ user_id := q.1, saml_provider_id := q.2, saml_access_token := none }])
      refine ⟨{ user_id := q.1, saml_provider_id := q.2, saml_access_token := none } :: e,
        ?_, ?_⟩
      · rw [he, List.append_assoc]
        rfl
      · intro t ht
        cases ht with
        | head => rfl
        | tail _ h2 => exact hv t h2

theorem length_pairTokens_ensureFold_le (prs : List (Nat × Nat))
    (tks : List SamlToken) (u p : Nat) (h : (pairTokens tks u p).length ≤ 1) :
    (pairTokens (ensureFold tks prs) u p).length ≤ 1 := by
  induction prs generalizing tks with
  | nil => exact h
  | cons q rest ih => exact ih _ (length_pairTokens_ensure_le q.1 q.2 u p tks h)

theorem pairTokens_map_preserving (tks : List SamlToken) (f : SamlToken → SamlToken)
    (hf1 : ∀ t, (f t).user_id = t.user_id)
    (hf2 : ∀ t, (f t).saml_provider_id = t.saml_provider_id) (u p : Nat) :
    pairTokens (tks.map f) u p = (pairTokens tks u p).map f := by
  unfold pairTokens
  induction tks with
  | nil => rfl
  | cons a l ih =>
    simp only [List.map_cons, List.filter_cons, hf1, hf2]
    split <;> simp [ih]

/-! ### State-level preservation lemmas -/

theorem tokenInvariant_ensure (st : State) (ids : List Nat)
    (h : tokenInvariant st) : tokenInvariant (ensure_saml_token_exists st ids) := by
  intro u p
  show (pairTokens (ensureFold st.tokens (ensure_pairs st ids)) u p).length ≤ 1
  exact length_pairTokens_ensureFold_le _ _ _ _ (h u p)

theorem autoremove_ok_invariant (cfg : Config) (st : State) (ids : List Nat)
    (st2 : State) (h : tokenInvariant st)
    (hok : autoremove_password_if_saml cfg st ids = .ok st2) : tokenInvariant st2 := by
  unfold autoremove_password_if_saml at hok
  split at hok
  · cases hok
  · split at hok
    · cases hok
      exact h
    · split at hok
      · cases hok
        exact h
      · split at hok
        · cases hok
        · next st1 hsw =>
          cases hok
          have ht := (super_write_ok_tokens _ _ _ _ _ _ hsw).1
          have h1 : tokenInvariant st1 := by
            intro u2 p2
            unfold tokenCount
            rw [ht]
            exact h u2 p2
          exact tokenInvariant_ensure st1 _ h1

theorem write_users_ok_invariant (cfg : Config) (st : State) (ids : List Nat)
    (login? : Option String) (pw? : Option (Option String)) (st2 : State)
    (h : tokenInvariant st) (hok : write_users cfg st ids login? pw? = .ok st2) :
    tokenInvariant st2 := by
  unfold write_users at hok
  split at hok
  · cases hok
  · next st1 hsw =>
    split at hok
    · cases hok
    · next st3 har =>
      cases hok
      have ht := (super_write_ok_tokens _ _ _ _ _ _ hsw).1
      have h1 : tokenInvariant st1 := by
        intro u2 p2
        unfold tokenCount
        rw [ht]
        exact h u2 p2
      exact tokenInvariant_ensure _ _ (autoremove_ok_invariant _ _ _ _ h1 har)

theorem autoremove_ok_pairTokens (cfg : Config) (st : State) (ids : List Nat)
    (st2 : State) (u p : Nat) (h : hasTokenFor st.tokens u p = true)
    (hok : autoremove_password_if_saml cfg st ids = .ok st2) :
    pairTokens st2.tokens u p = pairTokens st.tokens u p
      ∧ hasTokenFor st2.tokens u p = true := by
  unfold autoremove_password_if_saml at hok
  split at hok
  · cases hok
  · split at hok
    · cases hok
      exact ⟨rfl, h⟩
    · split at hok
      · cases hok
        exact ⟨rfl, h⟩
      · split at hok
        · cases hok
        · next st1 hsw =>
          cases hok
          have ht := (super_write_ok_tokens _ _ _ _ _ _ hsw).1
          have h1 : hasTokenFor st1.tokens u p = true := by
            rw [ht]
            exact h
          constructor
          · show pairTokens (ensureFold st1.tokens _) u p = _
            rw [pairTokens_ensureFold_of_present _ _ _ _ h1, ht]
          · exact hasTokenFor_ensureFold_mono _ _ _ _ h1

theorem write_users_ok_pairTokens (cfg : Config) (st : State) (ids : List Nat)
    (login? : Option String) (pw? : Option (Option String)) (st2 : State) (u p : Nat)
    (h : hasTokenFor st.tokens u p = true)
    (hok : write_users cfg st ids login? pw? = .ok st2) :
    pairTokens st2.tokens u p = pairTokens st.tokens u p := by
  unfold write_users at hok
  split at hok
  · cases hok
  · next st1 hsw =>
    split at hok
    · cases hok
    · next st3 har =>
      cases hok
      have ht := (super_write_ok_tokens _ _ _ _ _ _ hsw).1
      have h1 : hasTokenFor st1.tokens u p = true := by
        rw [ht]
        exact h
      obtain ⟨hp3, hh3⟩ := autoremove_ok_pairTokens _ _ _ _ _ _ h1 har
      show pairTokens (ensureFold st3.tokens _) u p = _
      rw [pairTokens_ensureFold_of_present _ _ _ _ hh3, hp3, ht]

/-! ### Branch characterisations -/

theorem set_password_of_allow_true (cfg : Config) (st : State) (selfIds : List Nat)
    (hallow : allow_saml_and_password cfg = some true) :
    set_password cfg st selfIds = .ok st := by
  unfold set_password
  rw [hallow]
  rfl

theorem set_password_of_allow_false (cfg : Config) (st : State) (selfIds : List Nat)
    (hallow : allow_saml_and_password cfg = some false) :
    set_password cfg st selfIds =
      (if selfIds.length ≥ 2 && selfIds.any (fun u => hasSamlIds st u) then
        .error .expectedSingleton
      else if !(set_password_saml_users cfg st selfIds).isEmpty then
        .error (.validationError
          ((set_password_saml_users cfg st selfIds).map
            (fun u => (userLogin st u).getD "")))
      else
        .ok st) := by
  unfold set_password
  rw [hallow]
  rfl

theorem autoremove_of_allow_true (cfg : Config) (st : State) (selfIds : List Nat)
    (hallow : allow_saml_and_password cfg = some true) :
    autoremove_password_if_saml cfg st selfIds = .ok st := by
  unfold autoremove_password_if_saml
  rw [hallow]
  rfl

theorem autoremove_of_allow_false (cfg : Config) (st : State) (selfIds : List Nat)
    (hallow : allow_saml_and_password cfg = some false) :
    autoremove_password_if_saml cfg st selfIds =
      (if (autoremove_to_remove st selfIds).isEmpty then .ok st
      else
        match super_write cfg st (autoremove_to_remove st selfIds) none
            (some (autoremove_gen_password cfg)) with
        | .error e => .error e
        | .ok st1 =>
          .ok (ensure_saml_token_exists st1 (autoremove_to_remove st selfIds))) := by
  unfold autoremove_password_if_saml
  rw [hallow]
  rfl

theorem autoremove_gen_password_off (cfg : Config)
    (h : cfg.password_security = false) : autoremove_gen_password cfg = none := by
  unfold autoremove_gen_password
  rw [h]
  rfl

theorem autoremove_gen_password_on (cfg : Config)
    (h : cfg.password_security = true) :
    autoremove_gen_password cfg = some cfg.generated_password := by
  unfold autoremove_gen_password
  rw [h]
  rfl

theorem userLogin_signin_token_update (st : State) (p uid : Nat) (resp : String)
    (u : Nat) :
    userLogin (signin_token_update st p uid resp) u = userLogin st u := by
  unfold signin_token_update
  split <;> rfl

theorem userPassword_signin_token_update (st : State) (p uid : Nat) (resp : String)
    (u : Nat) :
    userPassword (signin_token_update st p uid resp) u = userPassword st u := by
  unfold signin_token_update
  split <;> rfl

theorem map_update_value (tks : List SamlToken) (provider uid : Nat) (v : String) :
    ∀ t ∈ tks.map (fun t =>
      if t.saml_provider_id == provider && t.user_id == uid then
        { t with saml_access_token := some v }
      else t),
      t.user_id = uid → t.saml_provider_id = provider →
      t.saml_access_token = some v := by
  intro t ht hu hp
  obtain ⟨t0, ht0, rfl⟩ := List.mem_map.mp ht
  by_cases hc : (t0.saml_provider_id == provider && t0.user_id == uid) = true
  · rw [if_pos hc]
  · rw [if_neg hc] at hu hp ⊢
    exact absurd (by simp [hu, hp]) hc

theorem signin_token_update_facts (st : State) (p uid : Nat) (resp : String) :
    hasTokenFor (signin_token_update st p uid resp).tokens uid p = true
    ∧ ∀ t ∈ (signin_token_update st p uid resp).tokens,
        t.user_id = uid → t.saml_provider_id = p →
        t.saml_access_token = some resp := by
  unfold signin_token_update
  split
  · next hne =>
    have hne2 : pairTokens st.tokens uid p ≠ [] := by
      rw [← filter_prov_user]
      intro hnil
      rw [hnil] at hne
      simp at hne
    constructor
    · rw [hasTokenFor_iff]
      show pairTokens (st.tokens.map _) uid p ≠ []
      rw [pairTokens_map_preserving _ _
        (fun t => by split <;> rfl) (fun t => by split <;> rfl)]
      intro hmapnil
      exact hne2 (List.map_eq_nil_iff.mp hmapnil)
    · exact map_update_value st.tokens p uid resp
  · next hne =>
    constructor
    · unfold hasTokenFor
      rw [List.any_append]
      simp
    · intro t ht hu2 hp2
      rw [List.mem_append] at ht
      cases ht with
      | inl hin =>
        exfalso
        have hmem : t ∈ pairTokens st.tokens uid p :=
          List.mem_filter.mpr ⟨hin, by simp [hu2, hp2]⟩
        have hempty : pairTokens st.tokens uid p = [] := by
          rw [← filter_prov_user]
          simp at hne
          exact List.filter_eq_nil_iff.mpr (fun a ha => by simpa using hne a ha)
        rw [hempty] at hmem
        cases hmem
      | inr hnew =>
        cases hnew with
        | head => rfl
        | tail _ h2 => cases h2

theorem tokenInvariant_signin_token_update (st : State) (p uid : Nat)
    (resp : String) (hinv : tokenInvariant st) :
    tokenInvariant (signin_token_update st p uid resp) := by
  intro u2 p2
  unfold signin_token_update
  split
  · show (pairTokens (st.tokens.map _) u2 p2).length ≤ 1
    rw [pairTokens_map_preserving _ _
      (fun t => by split <;> rfl) (fun t => by split <;> rfl)]
    rw [List.length_map]
    exact hinv u2 p2
  · next hne =>
    show (pairTokens (st.tokens ++ _) u2 p2).length ≤ 1
    rw [pairTokens_append, pairTokens_singleton]
    split
    · next hph =>
      simp only [Bool.and_eq_true, beq_iff_eq] at hph
      have hempty : pairTokens st.tokens uid p = [] := by
        rw [← filter_prov_user]
        simp at hne
        exact List.filter_eq_nil_iff.mpr (fun a ha => by simpa using hne a ha)
      rw [← hph.1, ← hph.2, hempty]
      simp
    · rw [List.append_nil]
      exact hinv u2 p2

theorem find?_eq_of_filter_singleton {α : Type} (l : List α) (q : α → Bool) (a : α)
    (h : l.filter q = [a]) : l.find? q = some a := by
  induction l with
  | nil => cases h
  | cons x xs ih =>
    rw [List.filter_cons] at h
    by_cases hx : q x = true
    · rw [if_pos hx] at h
      injection h with h1 h2
      rw [List.find?_cons, hx, h1]
    · rw [if_neg hx] at h
      have hx2 : q x = false := by
        rw [Bool.not_eq_true] at hx
        exact hx
      rw [List.find?_cons, hx2]
      exact ih h

theorem auth_saml_eq (cfg : Config) (st : State) (provider : Nat)
    (validation : Validation) (saml_response : String) :
    auth_saml cfg st provider validation saml_response =
      (if validation.user_id == "" then (st, .error .accessDenied)
      else
        match auth_saml_signin cfg st provider validation saml_response with
        | (st1, .error e) => (st1, .error e)
        | (st1, .ok none) => (st1, .error .accessDenied)
        | (st1, .ok (some l)) =>
          if l == "" then (st1, .error .accessDenied)
          else (st1, .ok (cfg.dbname, l, saml_response))) := by
  unfold auth_saml
  split
  · rfl
  · rcases auth_saml_signin cfg st provider validation saml_response with ⟨st1, res⟩
    cases res with
    | error e => rfl
    | ok login? => cases login? <;> rfl

theorem auth_saml_signin_found (cfg : Config) (st : State) (provider : Nat)
    (validation : Validation) (saml_response : String) (r : SamlId)
    (hfind : st.saml_ids.find? (fun x =>
      x.saml_uid == validation.user_id && x.saml_provider_id == provider) = some r) :
    auth_saml_signin cfg st provider validation saml_response =
      (if !validation.mapped_attrs.isEmpty then
        match write_users cfg
            (signin_token_update st provider r.user_id saml_response) [r.user_id]
            ((validation.mapped_attrs.find? (fun q => q.1 == "login")).map
              (fun q => q.2))
            (((validation.mapped_attrs.find? (fun q => q.1 == "password")).map
              (fun q => q.2)).map some) with
        | .error e =>
          (signin_token_update st provider r.user_id saml_response, .error e)
        | .ok st2 => (st2, .ok (userLogin st2 r.user_id))
      else
        (signin_token_update st provider r.user_id saml_response,
          .ok (userLogin (signin_token_update st provider r.user_id saml_response)
            r.user_id))) := by
  unfold auth_saml_signin
  rw [hfind]

theorem token_conclusions_of_pair_eq (stu st2 : State) (uid p : Nat) (resp : String)
    (hfacts1 : hasTokenFor stu.tokens uid p = true)
    (hfacts2 : ∀ t ∈ stu.tokens, t.user_id = uid → t.saml_provider_id = p →
      t.saml_access_token = some resp)
    (hpe : pairTokens st2.tokens uid p = pairTokens stu.tokens uid p) :
    1 ≤ tokenCount st2 uid p
    ∧ ∀ t ∈ st2.tokens, t.user_id = uid → t.saml_provider_id = p →
        t.saml_access_token = some resp := by
  constructor
  · show 1 ≤ (pairTokens st2.tokens uid p).length
    rw [hpe]
    exact one_le_length_pairTokens_of_hasTokenFor _ _ _ hfacts1
  · intro t ht hu2 hp2
    have htm : t ∈ pairTokens st2.tokens uid p :=
      List.mem_filter.mpr ⟨ht, by simp [hu2, hp2]⟩
    rw [hpe] at htm
    obtain ⟨ht2, _⟩ := List.mem_filter.mp htm
    exact hfacts2 t ht2 hu2 hp2

/-! ### Claim theorems -/

/-- C10: when the configuration parameter
`auth_saml.allow_saml_uid_and_internal_password` is absent from the
configuration store, `_allow_saml_and_password` returns false, so
password/federated-identity coexistence is disallowed by default. -/
theorem C10_absent_param_disallows (cfg : Config) (h : cfg.allow_param = none) :
    allow_saml_and_password cfg = some false := by
  unfold allow_saml_and_password get_allow_param
  rw [h]
  rfl

/-- Witness for C10 at the concrete default configuration. -/
theorem C10_absent_param_disallows_witness :
    cfgDefault.allow_param = none
    ∧ allow_saml_and_password cfgDefault = some false :=
  ⟨rfl, C10_absent_param_disallows cfgDefault rfl⟩

/-- C9: `_check_credentials` succeeds when the delegated standard check
succeeds; it intercepts exactly the `AccessDenied` and
`passlib.exc.PasswordSizeError` failures, turning them into success
precisely when a token of the session user equals the presented secret and
into `AccessDenied` otherwise; and it propagates any other failure
unchanged. -/
theorem C9_check_credentials_fallback (st : State) (uid : Nat) (pw : String) :
    check_credentials st uid pw .ok = .ok ()
    ∧ check_credentials st uid pw .accessDenied =
        (if st.tokens.any (fun t =>
            t.user_id == uid && t.saml_access_token == some pw) then
          .ok ()
        else .error .accessDenied)
    ∧ check_credentials st uid pw .passwordSizeError =
        (if st.tokens.any (fun t =>
            t.user_id == uid && t.saml_access_token == some pw) then
          .ok ()
        else .error .accessDenied)
    ∧ ∀ c : Nat, check_credentials st uid pw (.otherError c) =
        .error (.otherError c) :=
  ⟨rfl, rfl, rfl, fun _ => rfl⟩

/-- C8: when no FederatedIdentity record matches the validated subject,
`auth_saml` raises `AccessDenied` and the state — in particular the token
store — is returned unchanged. -/
theorem C8_zero_matches_denied (cfg : Config) (st : State) (p : Nat)
    (v : Validation) (resp : String)
    (h : st.saml_ids.filter (fun r =>
      r.saml_uid == v.user_id && r.saml_provider_id == p) = []) :
    auth_saml cfg st p v resp = (st, .error .accessDenied) := by
  have hfind : st.saml_ids.find? (fun r =>
      r.saml_uid == v.user_id && r.saml_provider_id == p) = none := by
    rw [List.find?_eq_none]
    exact List.filter_eq_nil_iff.mp h
  rw [auth_saml_eq]
  split
  · rfl
  · unfold auth_saml_signin
    rw [hfind]

/-- Witness for C8: an assertion for an unknown subject `"zzz"` against
`stAlice` is denied and the state is unchanged. -/
theorem C8_zero_matches_denied_witness :
    stAlice.saml_ids.filter (fun r =>
      r.saml_uid == (Validation.mk "zzz" []).user_id
      && r.saml_provider_id == 7) = []
    ∧ auth_saml cfgDefault stAlice 7 (Validation.mk "zzz" []) "BLOB" =
        (stAlice, .error .accessDenied) :=
  ⟨rfl, C8_zero_matches_denied cfgDefault stAlice 7 (Validation.mk "zzz" []) "BLOB" rfl⟩

/-- C4: with coexistence disallowed, an explicit single-record write of a
non-blank password on a non-exempt user with a federated identity fails
with the `PasswordSamlConflict` validation error, which carries the list of
offending logins. -/
theorem C4_password_write_conflict (cfg : Config) (st : State) (u : Nat)
    (usr : UserRec) (pw : String)
    (hallow : allow_saml_and_password cfg = some false)
    (husr : findUser st u = some usr)
    (hsaml : hasSamlIds st u = true)
    (hexempt : (saml_allowed_user_ids cfg).contains u = false)
    (hpw : pw ≠ "") :
    write_users cfg st [u] none (some (some pw)) =
      .error (.validationError [usr.login]) := by
  have htr : truthyPassword (setUserPassword st [u] (some pw)) u = true := by
    unfold truthyPassword
    rw [userPassword_setUserPassword_of_contains _ _ _ _ (by simp), husr]
    simpa using hpw
  have hsaml2 : hasSamlIds (setUserPassword st [u] (some pw)) u = true := by
    rw [hasSamlIds_setUserPassword]
    exact hsaml
  have hexempt2 : u ∉ saml_allowed_user_ids cfg := by simpa using hexempt
  have hsu : set_password_saml_users cfg (setUserPassword st [u] (some pw)) [u]
      = [u] := by
    unfold set_password_saml_users
    simp [List.filter_cons, hsaml2, hexempt2, htr]
  have hlog : userLogin (setUserPassword st [u] (some pw)) u = some usr.login := by
    rw [userLogin_setUserPassword]
    unfold userLogin
    rw [husr]
    rfl
  have hsw : super_write cfg st [u] none (some (some pw)) =
      .error (.validationError [usr.login]) := by
    show set_password cfg (setUserPassword st [u] (some pw)) [u] = _
    rw [set_password_of_allow_false _ _ _ hallow, hsu]
    simp [hlog]
  unfold write_users
  rw [hsw]

/-- Witness for C4: writing password `"xyz"` on user 5 of `stBob` under the
default (disallowing) configuration raises the conflict error naming
`"bob"`. -/
theorem C4_password_write_conflict_witness :
    allow_saml_and_password cfgDefault = some false
    ∧ findUser stBob 5 = some { id := 5, login := "bob", password := some "pw" }
    ∧ hasSamlIds stBob 5 = true
    ∧ (saml_allowed_user_ids cfgDefault).contains 5 = false
    ∧ write_users cfgDefault stBob [5] none (some (some "xyz")) =
        .error (.validationError ["bob"]) :=
  ⟨rfl, rfl, rfl, rfl,
    C4_password_write_conflict cfgDefault stBob 5
      { id := 5, login := "bob", password := some "pw" } "xyz"
      rfl rfl rfl rfl (by decide)⟩

/-- C1 counterexample: `stAmbiguous` holds two FederatedIdentity matches
for `(provider 7, subject "abc")`, yet sign-in succeeds as `"alice"` (the
user of the first match) instead of yielding a denial. -/
theorem C1_counterexample :
    (stAmbiguous.saml_ids.filter (fun r =>
      r.saml_uid == "abc" && r.saml_provider_id == 7)).length = 2
    ∧ (auth_saml cfgDefault stAmbiguous 7 (Validation.mk "abc" []) "RESP").2 =
        .ok ("db", "alice", "RESP") :=
  ⟨rfl, rfl⟩

/-- C1 amended: the `limit=1` search makes resolution silently pick the
first matching FederatedIdentity record and proceed to a successful
sign-in of its user even when two or more records match; denial arises
only from zero matches, and the more-than-one case is not distinguishably
reported. -/
theorem C1_amended_first_match_wins (cfg : Config) (st : State) (p : Nat)
    (v : Validation) (resp : String) (r : SamlId) (l : String)
    (hmany : 2 ≤ (st.saml_ids.filter (fun x =>
      x.saml_uid == v.user_id && x.saml_provider_id == p)).length)
    (hfind : st.saml_ids.find? (fun x =>
      x.saml_uid == v.user_id && x.saml_provider_id == p) = some r)
    (huid : v.user_id ≠ "")
    (hlogin : userLogin st r.user_id = some l)
    (hl : l ≠ "")
    (hattrs : v.mapped_attrs = []) :
    (auth_saml cfg st p v resp).2 = .ok (cfg.dbname, l, resp) := by
  rw [auth_saml_eq]
  rw [if_neg (by simpa using huid)]
  rw [auth_saml_signin_found _ _ _ _ _ _ hfind, hattrs]
  simp only [List.isEmpty_nil, Bool.not_true, Bool.false_eq_true, if_false]
  rw [userLogin_signin_token_update, hlogin]
  have hl2 : (l == "") = false := by simpa using hl
  simp [hl2]

/-- Witness for C1 amended, at the two-match state `stAmbiguous`. -/
theorem C1_amended_first_match_wins_witness :
    2 ≤ (stAmbiguous.saml_ids.filter (fun x =>
      x.saml_uid == (Validation.mk "abc" []).user_id
      && x.saml_provider_id == 7)).length
    ∧ (auth_saml cfgDefault stAmbiguous 7 (Validation.mk "abc" []) "RESP").2 =
        .ok (cfgDefault.dbname, "alice", "RESP") :=
  ⟨by decide,
    C1_amended_first_match_wins cfgDefault stAmbiguous 7 (Validation.mk "abc" [])
      "RESP" (SamlId.mk 2 7 "abc") "alice" (by decide) rfl (by decide) rfl
      (by decide) rfl⟩

/-- C2 counterexample: under `cfgAdmin` the default admin (id 2, a member
of `_saml_allowed_user_ids`) holds a password and a federated identity;
a write (touching no field at all) triggers the post-write auto-cleanup,
which blanks the admin password — so the admin is not exempt on the
cleanup path. -/
theorem C2_counterexample :
    userPassword stAdmin 2 = some "secret"
    ∧ cfgAdmin.user_admin = some 2
    ∧ (write_users cfgAdmin stAdmin [2] none none).map
        (fun s => userPassword s 2) = .ok none :=
  ⟨rfl, rfl, rfl⟩

/-- C2 amended: the superuser is exempt on both paths — an explicit
password write on it succeeds and keeps the password —, while the default
admin is exempt only from the explicit password-write constraint (which
consults `_saml_allowed_user_ids`): the post-write auto-cleanup filters
only on `rec.id != SUPERUSER_ID`, so after a password write on a federated
admin the write succeeds without `PasswordSamlConflict` but the cleanup
blanks the admin password; the two paths use different eligibility
predicates. -/
theorem C2_amended_exemption :
    (∀ (cfg : Config) (st : State) (pw : String) (b : Bool),
      allow_saml_and_password cfg = some b →
      write_users cfg st [SUPERUSER_ID] none (some (some pw)) =
        .ok (ensure_saml_token_exists
          (setUserPassword st [SUPERUSER_ID] (some pw)) [SUPERUSER_ID]))
    ∧ (∀ (cfg : Config) (st : State) (a : Nat) (usr : UserRec) (pw : String),
        cfg.user_admin = some a → a ≠ SUPERUSER_ID →
        allow_saml_and_password cfg = some false →
        cfg.password_security = false → findUser st a = some usr →
        hasSamlIds st a = true → pw ≠ "" →
        (write_users cfg st [a] none (some (some pw))).map
          (fun s => userPassword s a) = .ok none) := by
  constructor
  · intro cfg st pw b hallow
    have hsw : super_write cfg st [SUPERUSER_ID] none (some (some pw)) =
        .ok (setUserPassword st [SUPERUSER_ID] (some pw)) := by
      show set_password cfg (setUserPassword st [SUPERUSER_ID] (some pw))
        [SUPERUSER_ID] = _
      cases b with
      | true => exact set_password_of_allow_true _ _ _ hallow
      | false =>
        rw [set_password_of_allow_false _ _ _ hallow]
        have hmem : SUPERUSER_ID ∈ saml_allowed_user_ids cfg := by
          simpa using contains_superuser cfg
        simp [set_password_saml_users, hmem]
    have har : autoremove_password_if_saml cfg
        (setUserPassword st [SUPERUSER_ID] (some pw)) [SUPERUSER_ID] =
        .ok (setUserPassword st [SUPERUSER_ID] (some pw)) := by
      cases b with
      | true => exact autoremove_of_allow_true _ _ _ hallow
      | false =>
        rw [autoremove_of_allow_false _ _ _ hallow]
        have hto : autoremove_to_remove
            (setUserPassword st [SUPERUSER_ID] (some pw)) [SUPERUSER_ID] = [] := by
          unfold autoremove_to_remove
          simp
        rw [hto]
        rfl
    simp only [write_users, hsw, har]
  · intro cfg st a usr pw hadm hane hallow hps husr hsaml hpw
    have hcona : (saml_allowed_user_ids cfg).contains a = true := by
      unfold saml_allowed_user_ids
      rw [hadm]
      simp
    have htr : truthyPassword (setUserPassword st [a] (some pw)) a = true := by
      unfold truthyPassword
      rw [userPassword_setUserPassword_of_contains _ _ _ _ (by simp), husr]
      simpa using hpw
    have hsaml2 : hasSamlIds (setUserPassword st [a] (some pw)) a = true := by
      rw [hasSamlIds_setUserPassword]
      exact hsaml
    have hsw : super_write cfg st [a] none (some (some pw)) =
        .ok (setUserPassword st [a] (some pw)) := by
      show set_password cfg (setUserPassword st [a] (some pw)) [a] = _
      rw [set_password_of_allow_false _ _ _ hallow]
      have hmema : a ∈ saml_allowed_user_ids cfg := by simpa using hcona
      simp [set_password_saml_users, hmema]
    have hane2 : (a == SUPERUSER_ID) = false := by simpa using hane
    have hto : autoremove_to_remove (setUserPassword st [a] (some pw)) [a] = [a] := by
      unfold autoremove_to_remove
      simp [List.filter_cons, hane2, hsaml2, htr]
    have htr3 : truthyPassword
        (setUserPassword (setUserPassword st [a] (some pw)) [a] none) a = false := by
      unfold truthyPassword
      rw [userPassword_setUserPassword_of_contains _ _ _ _ (by simp)]
      cases findUser (setUserPassword st [a] (some pw)) a <;> rfl
    have hsw2 : super_write cfg (setUserPassword st [a] (some pw)) [a] none
        (some none) =
        .ok (setUserPassword (setUserPassword st [a] (some pw)) [a] none) := by
      show set_password cfg
        (setUserPassword (setUserPassword st [a] (some pw)) [a] none) [a] = _
      rw [set_password_of_allow_false _ _ _ hallow]
      simp [set_password_saml_users, htr3]
    have har : autoremove_password_if_saml cfg
        (setUserPassword st [a] (some pw)) [a] =
        .ok (ensure_saml_token_exists
          (setUserPassword (setUserPassword st [a] (some pw)) [a] none) [a]) := by
      rw [autoremove_of_allow_false _ _ _ hallow, hto]
      simp only [List.isEmpty_cons, Bool.false_eq_true, if_false,
        autoremove_gen_password_off _ hps, hsw2]
    have hpw2 : userPassword (ensure_saml_token_exists (ensure_saml_token_exists
        (setUserPassword (setUserPassword st [a] (some pw)) [a] none) [a]) [a])
        a = none := by
      rw [userPassword_ensure, userPassword_ensure,
        userPassword_setUserPassword_of_contains _ _ _ _ (by simp)]
      cases findUser (setUserPassword st [a] (some pw)) a <;> rfl
    have hfin : write_users cfg st [a] none (some (some pw)) =
        .ok (ensure_saml_token_exists (ensure_saml_token_exists
          (setUserPassword (setUserPassword st [a] (some pw)) [a] none) [a]) [a]) := by
      simp only [write_users, hsw, har]
    rw [hfin]
    show Except.ok (userPassword (ensure_saml_token_exists (ensure_saml_token_exists
      (setUserPassword (setUserPassword st [a] (some pw)) [a] none) [a]) [a]) a) =
      Except.ok none
    rw [hpw2]

/-- Witness for C2 amended: both conjuncts instantiated under `cfgAdmin`. -/
theorem C2_amended_exemption_witness :
    write_users cfgAdmin stAdmin [SUPERUSER_ID] none (some (some "pw1")) =
      .ok (ensure_saml_token_exists
        (setUserPassword stAdmin [SUPERUSER_ID] (some "pw1")) [SUPERUSER_ID])
    ∧ (write_users cfgAdmin stAdmin [2] none (some (some "pw2"))).map
        (fun s => userPassword s 2) = .ok none :=
  ⟨C2_amended_exemption.1 cfgAdmin stAdmin "pw1" false rfl,
    C2_amended_exemption.2 cfgAdmin stAdmin 2
      (UserRec.mk 2 "admin" (some "secret")) "pw2"
      rfl (by decide) rfl rfl rfl rfl (by decide)⟩

/-- C3 counterexample: with the `password_security` module installed and
coexistence disallowed, a write touching no field on the non-exempt
federated user `"bob"` makes the auto-cleanup raise the password constraint
error instead of silently blanking the password. -/
theorem C3_counterexample :
    write_users cfgStrength stBob [5] none none =
      .error (.validationError ["bob"]) := rfl

/-- C3 amended: when `password_security` is not installed, the post-write
cleanup of a single federated non-superuser user with a password silently
sets the password to `NULL` and raises nothing; when `password_security`
is installed, the cleanup instead writes a generated placeholder password
and, for a non-exempt user, that inner write raises the
`PasswordSamlConflict` validation error. -/
theorem C3_amended_cleanup :
    (∀ (cfg : Config) (st : State) (u : Nat),
      allow_saml_and_password cfg = some false →
      cfg.password_security = false → hasSamlIds st u = true →
      truthyPassword st u = true → u ≠ SUPERUSER_ID →
      (write_users cfg st [u] none none).map (fun s => userPassword s u) =
        .ok none)
    ∧ (∀ (cfg : Config) (st : State) (u : Nat) (usr : UserRec),
        allow_saml_and_password cfg = some false →
        cfg.password_security = true → cfg.generated_password ≠ "" →
        (saml_allowed_user_ids cfg).contains u = false →
        findUser st u = some usr → hasSamlIds st u = true →
        truthyPassword st u = true →
        write_users cfg st [u] none none =
          .error (.validationError [usr.login])) := by
  constructor
  · intro cfg st u hallow hps hsaml htr hne
    have hne2 : (u == SUPERUSER_ID) = false := by simpa using hne
    have hto : autoremove_to_remove st [u] = [u] := by
      unfold autoremove_to_remove
      simp [List.filter_cons, hne2, hsaml, htr]
    have htr3 : truthyPassword (setUserPassword st [u] none) u = false := by
      unfold truthyPassword
      rw [userPassword_setUserPassword_of_contains _ _ _ _ (by simp)]
      cases findUser st u <;> rfl
    have hsw2 : super_write cfg st [u] none (some none) =
        .ok (setUserPassword st [u] none) := by
      show set_password cfg (setUserPassword st [u] none) [u] = _
      rw [set_password_of_allow_false _ _ _ hallow]
      simp [set_password_saml_users, htr3]
    have har : autoremove_password_if_saml cfg st [u] =
        .ok (ensure_saml_token_exists (setUserPassword st [u] none) [u]) := by
      rw [autoremove_of_allow_false _ _ _ hallow, hto]
      simp only [List.isEmpty_cons, Bool.false_eq_true, if_false,
        autoremove_gen_password_off _ hps, hsw2]
    have hpw2 : userPassword (ensure_saml_token_exists (ensure_saml_token_exists
        (setUserPassword st [u] none) [u]) [u]) u = none := by
      rw [userPassword_ensure, userPassword_ensure,
        userPassword_setUserPassword_of_contains _ _ _ _ (by simp)]
      cases findUser st u <;> rfl
    have hfin : write_users cfg st [u] none none =
        .ok (ensure_saml_token_exists (ensure_saml_token_exists
          (setUserPassword st [u] none) [u]) [u]) := by
      have hsw0 : super_write cfg st [u] none none = .ok st := rfl
      simp only [write_users, hsw0, har]
    rw [hfin]
    show Except.ok (userPassword (ensure_saml_token_exists
      (ensure_saml_token_exists (setUserPassword st [u] none) [u]) [u]) u) =
      Except.ok none
    rw [hpw2]
  · intro cfg st u usr hallow hps hgen hexempt husr hsaml htr
    have hexempt2 : u ∉ saml_allowed_user_ids cfg := by simpa using hexempt
    have hne : u ≠ SUPERUSER_ID := by
      intro he
      rw [he] at hexempt
      rw [contains_superuser cfg] at hexempt
      cases hexempt
    have hne2 : (u == SUPERUSER_ID) = false := by simpa using hne
    have hto : autoremove_to_remove st [u] = [u] := by
      unfold autoremove_to_remove
      simp [List.filter_cons, hne2, hsaml, htr]
    have htr3 : truthyPassword
        (setUserPassword st [u] (some cfg.generated_password)) u = true := by
      unfold truthyPassword
      rw [userPassword_setUserPassword_of_contains _ _ _ _ (by simp), husr]
      simpa using hgen
    have hsaml3 : hasSamlIds
        (setUserPassword st [u] (some cfg.generated_password)) u = true := by
      rw [hasSamlIds_setUserPassword]
      exact hsaml
    have hlog : userLogin (setUserPassword st [u] (some cfg.generated_password)) u
        = some usr.login := by
      rw [userLogin_setUserPassword]
      unfold userLogin
      rw [husr]
      rfl
    have hsu : set_password_saml_users cfg
        (setUserPassword st [u] (some cfg.generated_password)) [u] = [u] := by
      unfold set_password_saml_users
      simp [List.filter_cons, hsaml3, hexempt2, htr3]
    have hsw2 : super_write cfg st [u] none (some (some cfg.generated_password)) =
        .error (.validationError [usr.login]) := by
      show set_password cfg
        (setUserPassword st [u] (some cfg.generated_password)) [u] = _
      rw [set_password_of_allow_false _ _ _ hallow, hsu]
      simp [hlog]
    have har : autoremove_password_if_saml cfg st [u] =
        .error (.validationError [usr.login]) := by
      rw [autoremove_of_allow_false _ _ _ hallow, hto]
      simp only [List.isEmpty_cons, Bool.false_eq_true, if_false,
        autoremove_gen_password_on _ hps, hsw2]
    have hsw0 : super_write cfg st [u] none none = .ok st := rfl
    simp only [write_users, hsw0, har]

/-- Witness for C3 amended: both conjuncts instantiated on `stBob`. -/
theorem C3_amended_cleanup_witness :
    (write_users cfgDefault stBob [5] none none).map
      (fun s => userPassword s 5) = .ok none
    ∧ write_users cfgStrength stBob [5] none none =
        .error (.validationError ["bob"]) :=
  ⟨C3_amended_cleanup.1 cfgDefault stBob 5 rfl rfl rfl rfl (by decide),
    C3_amended_cleanup.2 cfgStrength stBob 5
      (UserRec.mk 5 "bob" (some "pw")) rfl rfl (by decide) rfl rfl rfl rfl⟩

/-! ### Outcome characterisations of auth_saml, used for C5 and C7 -/

theorem auth_saml_of_signin_error (cfg : Config) (st : State) (p : Nat)
    (v : Validation) (resp : String) (st1 : State) (e : SamlError)
    (huid2 : (v.user_id == "") = false)
    (hsig : auth_saml_signin cfg st p v resp = (st1, .error e)) :
    auth_saml cfg st p v resp = (st1, .error e) := by
  rw [auth_saml_eq, hsig]
  simp [huid2]

theorem auth_saml_of_signin_ok_none (cfg : Config) (st : State) (p : Nat)
    (v : Validation) (resp : String) (st1 : State)
    (huid2 : (v.user_id == "") = false)
    (hsig : auth_saml_signin cfg st p v resp = (st1, .ok none)) :
    auth_saml cfg st p v resp = (st1, .error .accessDenied) := by
  rw [auth_saml_eq, hsig]
  simp [huid2]

theorem auth_saml_of_signin_ok_blank (cfg : Config) (st : State) (p : Nat)
    (v : Validation) (resp : String) (st1 : State) (l : String)
    (huid2 : (v.user_id == "") = false)
    (hsig : auth_saml_signin cfg st p v resp = (st1, .ok (some l)))
    (hle : (l == "") = true) :
    auth_saml cfg st p v resp = (st1, .error .accessDenied) := by
  rw [auth_saml_eq, hsig]
  simp [huid2, hle]

theorem auth_saml_of_signin_ok_some (cfg : Config) (st : State) (p : Nat)
    (v : Validation) (resp : String) (st1 : State) (l : String)
    (huid2 : (v.user_id == "") = false)
    (hsig : auth_saml_signin cfg st p v resp = (st1, .ok (some l)))
    (hle2 : (l == "") = false) :
    auth_saml cfg st p v resp = (st1, .ok (cfg.dbname, l, resp)) := by
  rw [auth_saml_eq, hsig]
  simp [huid2, hle2]

theorem auth_saml_conclusions_of_signin (cfg : Config) (st : State) (p : Nat)
    (v : Validation) (resp : String) (uid : Nat) (st2 : State)
    (out : String × String × String)
    (huid2 : (v.user_id == "") = false)
    (hsig : auth_saml_signin cfg st p v resp = (st2, .ok (userLogin st2 uid)))
    (hge : 1 ≤ tokenCount st2 uid p)
    (hval : ∀ t ∈ st2.tokens, t.user_id = uid → t.saml_provider_id = p →
      t.saml_access_token = some resp)
    (hok : (auth_saml cfg st p v resp).2 = .ok out) :
    out.1 = cfg.dbname ∧ out.2.2 = resp
    ∧ some out.2.1 = userLogin (auth_saml cfg st p v resp).1 uid
    ∧ 1 ≤ tokenCount (auth_saml cfg st p v resp).1 uid p
    ∧ ∀ t ∈ (auth_saml cfg st p v resp).1.tokens,
        t.user_id = uid → t.saml_provider_id = p →
        t.saml_access_token = some resp := by
  cases hlog : userLogin st2 uid with
  | none =>
    have hA := auth_saml_of_signin_ok_none cfg st p v resp st2 huid2
      (by rw [hsig, hlog])
    rw [hA] at hok
    simp at hok
  | some l =>
    by_cases hle : (l == "") = true
    · have hA := auth_saml_of_signin_ok_blank cfg st p v resp st2 l huid2
        (by rw [hsig, hlog]) hle
      rw [hA] at hok
      simp at hok
    · have hle2 : (l == "") = false := by simpa using hle
      have hA := auth_saml_of_signin_ok_some cfg st p v resp st2 l huid2
        (by rw [hsig, hlog]) hle2
      rw [hA] at hok ⊢
      have hout : (cfg.dbname, l, resp) = out := by simpa using hok
      subst hout
      refine ⟨rfl, rfl, ?_, hge, hval⟩
      show some l = userLogin st2 uid
      rw [hlog]

/-- C5: `_auth_saml_signin` preserves the at-most-one-token-per-pair
invariant: an existing token of the pair is overwritten in place and a
token is created only when none exists, so starting from a state where
every pair has at most one token, the state reached by the sign-in — on
success or on denial — still has at most one token per pair, for any
number of repeated sign-ins. -/
theorem C5_signin_preserves_invariant (cfg : Config) (st : State) (p : Nat)
    (v : Validation) (resp : String) (hinv : tokenInvariant st) :
    tokenInvariant (auth_saml_signin cfg st p v resp).1 := by
  unfold auth_saml_signin
  split
  · exact hinv
  · next r heq =>
    have hstu := tokenInvariant_signin_token_update st p r.user_id resp hinv
    split
    · split
      · next st2 hw => exact hstu
      · next st2 hw => exact write_users_ok_invariant _ _ _ _ _ _ hstu hw
    · exact hstu

/-- Witness for C5 at `stAlice` (empty token store satisfies the
invariant). -/
theorem C5_signin_preserves_invariant_witness :
    tokenInvariant stAlice
    ∧ tokenInvariant (auth_saml_signin cfgDefault stAlice 7
        (Validation.mk "abc" []) "BLOB").1 :=
  have h : tokenInvariant stAlice := by
    intro u2 p2
    simp [tokenCount, pairTokens, stAlice]
  ⟨h, C5_signin_preserves_invariant cfgDefault stAlice 7
    (Validation.mk "abc" []) "BLOB" h⟩

/-- C6: `_ensure_saml_token_exists` is idempotent — applying it a second
time is the identity — and for a linked `(user, provider)` pair that starts
with at most one token it leaves exactly one token; it never modifies an
existing token (in particular it never overwrites a non-empty value),
since it only appends placeholder tokens with a `NULL` value. -/
theorem C6_ensure_idempotent (st : State) (selfIds : List Nat) (u p : Nat)
    (r : SamlId) (hr : r ∈ st.saml_ids) (hru : r.user_id = u)
    (hrp : r.saml_provider_id = p) (hu : u ∈ selfIds)
    (hcount : tokenCount st u p ≤ 1) :
    ensure_saml_token_exists (ensure_saml_token_exists st selfIds) selfIds =
      ensure_saml_token_exists st selfIds
    ∧ tokenCount (ensure_saml_token_exists st selfIds) u p = 1
    ∧ ∃ extra, (ensure_saml_token_exists st selfIds).tokens = st.tokens ++ extra
        ∧ ∀ t ∈ extra, t.saml_access_token = none := by
  have hpair : (u, p) ∈ ensure_pairs st selfIds := by
    unfold ensure_pairs
    rw [List.mem_flatMap]
    refine ⟨u, ?_, ?_⟩
    · rw [List.mem_filter]
      refine ⟨hu, ?_⟩
      unfold hasSamlIds
      rw [List.any_eq_true]
      exact ⟨r, hr, by simp [hru]⟩
    · rw [List.mem_map]
      refine ⟨r, ?_, ?_⟩
      · rw [List.mem_filter]
        exact ⟨hr, by simp [hru]⟩
      · rw [hrp]
  refine ⟨?_, ?_, ?_⟩
  · have hall : ∀ q ∈ ensure_pairs st selfIds,
        hasTokenFor (ensure_saml_token_exists st selfIds).tokens q.1 q.2 = true := by
      intro q hq
      show hasTokenFor (ensureFold st.tokens (ensure_pairs st selfIds)) q.1 q.2 = true
      exact hasTokenFor_ensureFold_mem _ _ _ _ hq
    have hprs : ensure_pairs (ensure_saml_token_exists st selfIds) selfIds =
        ensure_pairs st selfIds := rfl
    show { ensure_saml_token_exists st selfIds with
        tokens := ensureFold (ensure_saml_token_exists st selfIds).tokens
          (ensure_pairs (ensure_saml_token_exists st selfIds) selfIds) } = _
    rw [hprs, ensureFold_eq_of_present _ _ hall]
  · have h1 : hasTokenFor (ensure_saml_token_exists st selfIds).tokens u p = true := by
      show hasTokenFor (ensureFold st.tokens (ensure_pairs st selfIds)) u p = true
      exact hasTokenFor_ensureFold_mem _ _ _ _ hpair
    have hle : tokenCount (ensure_saml_token_exists st selfIds) u p ≤ 1 := by
      show (pairTokens (ensureFold st.tokens (ensure_pairs st selfIds)) u p).length ≤ 1
      exact length_pairTokens_ensureFold_le _ _ _ _ hcount
    have hge : 1 ≤ tokenCount (ensure_saml_token_exists st selfIds) u p :=
      one_le_length_pairTokens_of_hasTokenFor _ _ _ h1
    exact Nat.le_antisymm hle hge
  · show ∃ extra, ensureFold st.tokens (ensure_pairs st selfIds) =
      st.tokens ++ extra ∧ ∀ t ∈ extra, t.saml_access_token = none
    exact ensureFold_append_only _ _

/-- Witness for C6 at `stAlice` with the pair `(4, 7)`. -/
theorem C6_ensure_idempotent_witness :
    SamlId.mk 4 7 "abc" ∈ stAlice.saml_ids
    ∧ tokenCount stAlice 4 7 ≤ 1
    ∧ (ensure_saml_token_exists (ensure_saml_token_exists stAlice [4]) [4] =
        ensure_saml_token_exists stAlice [4]
      ∧ tokenCount (ensure_saml_token_exists stAlice [4]) 4 7 = 1
      ∧ ∃ extra, (ensure_saml_token_exists stAlice [4]).tokens =
          stAlice.tokens ++ extra ∧ ∀ t ∈ extra, t.saml_access_token = none) :=
  ⟨by decide, by decide,
    C6_ensure_idempotent stAlice [4] 4 7 (SamlId.mk 4 7 "abc")
      (by decide) rfl rfl (by decide) (by decide)⟩

/-- C7: on a successful sign-in whose validated subject matches exactly one
FederatedIdentity record, `auth_saml` returns the database name, the
resolved user's login (read from the resulting state) and the raw assertion
payload itself, and every token stored for the `(user, provider)` pair in
the resulting state carries the raw payload as its value — not a freshly
minted secret. -/
theorem C7_success_returns_payload (cfg : Config) (st : State) (p : Nat)
    (v : Validation) (resp : String) (r : SamlId)
    (out : String × String × String)
    (hone : st.saml_ids.filter (fun x =>
      x.saml_uid == v.user_id && x.saml_provider_id == p) = [r])
    (hok : (auth_saml cfg st p v resp).2 = .ok out) :
    out.1 = cfg.dbname ∧ out.2.2 = resp
    ∧ some out.2.1 = userLogin (auth_saml cfg st p v resp).1 r.user_id
    ∧ 1 ≤ tokenCount (auth_saml cfg st p v resp).1 r.user_id p
    ∧ ∀ t ∈ (auth_saml cfg st p v resp).1.tokens,
        t.user_id = r.user_id → t.saml_provider_id = p →
        t.saml_access_token = some resp := by
  have hfind := find?_eq_of_filter_singleton _ _ _ hone
  obtain ⟨hfac1, hfac2⟩ := signin_token_update_facts st p r.user_id resp
  by_cases huid : (v.user_id == "") = true
  · rw [auth_saml_eq, if_pos huid] at hok
    simp at hok
  · have huid2 : (v.user_id == "") = false := by simpa using huid
    by_cases hattrs : (!v.mapped_attrs.isEmpty) = true
    · cases hw : write_users cfg (signin_token_update st p r.user_id resp)
          [r.user_id]
          ((v.mapped_attrs.find? (fun q => q.1 == "login")).map (fun q => q.2))
          (((v.mapped_attrs.find? (fun q => q.1 == "password")).map
            (fun q => q.2)).map some) with
      | error e =>
        have hsig : auth_saml_signin cfg st p v resp =
            (signin_token_update st p r.user_id resp, .error e) := by
          rw [auth_saml_signin_found _ _ _ _ _ _ hfind, if_pos hattrs, hw]
        have hA := auth_saml_of_signin_error cfg st p v resp _ e huid2 hsig
        rw [hA] at hok
        simp at hok
      | ok st2 =>
        have hsig : auth_saml_signin cfg st p v resp =
            (st2, .ok (userLogin st2 r.user_id)) := by
          rw [auth_saml_signin_found _ _ _ _ _ _ hfind, if_pos hattrs, hw]
        have hpe : pairTokens st2.tokens r.user_id p =
            pairTokens (signin_token_update st p r.user_id resp).tokens
              r.user_id p :=
          write_users_ok_pairTokens _ _ _ _ _ _ _ _ hfac1 hw
        obtain ⟨hge, hval⟩ := token_conclusions_of_pair_eq _ _ _ _ _ hfac1 hfac2 hpe
        exact auth_saml_conclusions_of_signin cfg st p v resp r.user_id st2 out
          huid2 hsig hge hval hok
    · have hsig : auth_saml_signin cfg st p v resp =
          (signin_token_update st p r.user_id resp,
            .ok (userLogin (signin_token_update st p r.user_id resp) r.user_id)) := by
        rw [auth_saml_signin_found _ _ _ _ _ _ hfind, if_neg hattrs]
      obtain ⟨hge, hval⟩ :=
        token_conclusions_of_pair_eq _ _ r.user_id p resp hfac1 hfac2 rfl
      exact auth_saml_conclusions_of_signin cfg st p v resp r.user_id _ out
        huid2 hsig hge hval hok

/-- Witness for C7 on the single-link state `stAlice`. -/
theorem C7_success_returns_payload_witness :
    stAlice.saml_ids.filter (fun x =>
      x.saml_uid == (Validation.mk "abc" []).user_id
      && x.saml_provider_id == 7) = [SamlId.mk 4 7 "abc"]
    ∧ (auth_saml cfgDefault stAlice 7 (Validation.mk "abc" []) "BLOB").2 =
        .ok ("db", "alice", "BLOB")
    ∧ (("db", "alice", "BLOB") : String × String × String).1 = cfgDefault.dbname
    ∧ (("db", "alice", "BLOB") : String × String × String).2.2 = "BLOB"
    ∧ some (("db", "alice", "BLOB") : String × String × String).2.1 =
        userLogin (auth_saml cfgDefault stAlice 7
          (Validation.mk "abc" []) "BLOB").1 4
    ∧ 1 ≤ tokenCount (auth_saml cfgDefault stAlice 7
        (Validation.mk "abc" []) "BLOB").1 4 7
    ∧ ∀ t ∈ (auth_saml cfgDefault stAlice 7
        (Validation.mk "abc" []) "BLOB").1.tokens,
        t.user_id = 4 → t.saml_provider_id = 7 →
        t.saml_access_token = some "BLOB" :=
  have h := C7_success_returns_payload cfgDefault stAlice 7
    (Validation.mk "abc" []) "BLOB" (SamlId.mk 4 7 "abc")
    ("db", "alice", "BLOB") rfl rfl
  ⟨rfl, rfl, h.1, h.2.1, h.2.2.1, h.2.2.2.1, h.2.2.2.2⟩

end AuthSaml
